import Mathlib

/-!
Verification of the Turnstile-Solver repository core: a shallow embedding of
the bounded-attempt extraction loops of `async_solver.py` / `sync_solver.py`,
of the API server's background unit of work `_solve_turnstile`, and of the
submit / result endpoints of `api_solver.py`.

The browser page is modelled as an oracle: for each loop iteration it supplies
the outcomes of the five page operations the code performs on that iteration
(`eval_on_selector`, the style-reveal `evaluate`, `click`, `query_selector`,
`get_attribute`).  A fallible call is an `Except String` value — `.error e`
means the underlying automation call raised an exception with message `e`.
Time is modelled by a clock (a `Nat`) that advances by one unit per executed
`sleep(0.5)`; all other operations are instantaneous.
-/

deriving instance DecidableEq for Except

namespace TurnstileSolver

/-- Outcomes of the page operations performed during one iteration of the
extraction retry loop.  `evalRes` is the `eval_on_selector` probe of the
hidden field, `styleRes` the widget-reveal `evaluate`, `clickRes` the widget
click, `queryRes` the `query_selector` element lookup (`true` when an element
is found), `attrRes` the `get_attribute("value")` read. -/
structure Attempt where
  evalRes  : Except String String
  styleRes : Except String Unit
  clickRes : Except String Unit
  queryRes : Except String Bool
  attrRes  : Except String (Option String)

/-- Result of a run of a solver module's extraction loop together with its
operation counts: `result` is the returned value (`.error` when an exception
propagated out of the loop), `probes` the number of `eval_on_selector` calls,
`clicks` the number of `page.click` calls issued, `empties` the number of
probes that observed an empty field, `sleeps` the number of executed sleeps. -/
structure LoopOut where
  result  : Except String (Option String)
  probes  : Nat
  clicks  : Nat
  empties : Nat
  sleeps  : Nat
deriving DecidableEq, Repr

/-- The `while attempts < max_attempts` loop of
`AsyncTurnstileSolver._get_turnstile_response` (async_solver.py lines
111-134), with the page modelled as an oracle indexed by the attempt counter.
The loop has no per-attempt exception handler: a raising page call propagates
out (an `.error` result).  On an empty probe the widget is nudged unless
`invisible`, the loop sleeps and the counter increments; on a non-empty probe
the element is looked up — if found its `value` attribute is returned, if not
the loop breaks and `None` is returned. -/
def asyncLoopGo (page : Nat → Attempt) (invisible : Bool) :
    Nat → Nat → Nat → Nat → Nat → Nat → LoopOut
  | _, 0, probes, clicks, empties, sleeps =>
      ⟨Except.ok none, probes, clicks, empties, sleeps⟩
  | attempts, fuel+1, probes, clicks, empties, sleeps =>
    match (page attempts).evalRes with
    | Except.error e => ⟨Except.error e, probes + 1, clicks, empties, sleeps⟩
    | Except.ok v =>
      if v = "" then
        if invisible then
          asyncLoopGo page invisible (attempts+1) fuel (probes+1) clicks (empties+1) (sleeps+1)
        else
          match (page attempts).styleRes with
          | Except.error e => ⟨Except.error e, probes + 1, clicks, empties + 1, sleeps⟩
          | Except.ok _ =>
            match (page attempts).clickRes with
            | Except.error e => ⟨Except.error e, probes + 1, clicks + 1, empties + 1, sleeps⟩
            | Except.ok _ =>
              asyncLoopGo page invisible (attempts+1) fuel (probes+1) (clicks+1) (empties+1) (sleeps+1)
      else
        match (page attempts).queryRes with
        | Except.error e => ⟨Except.error e, probes + 1, clicks, empties, sleeps⟩
        | Except.ok false => ⟨Except.ok none, probes + 1, clicks, empties, sleeps⟩
        | Except.ok true =>
          match (page attempts).attrRes with
          | Except.error e => ⟨Except.error e, probes + 1, clicks, empties, sleeps⟩
          | Except.ok w => ⟨Except.ok w, probes + 1, clicks, empties, sleeps⟩

/-- `AsyncTurnstileSolver._get_turnstile_response` (async_solver.py line 109):
run the retry loop starting from `attempts = 0` with an attempt budget of
`max_attempts` (default 10). -/
def async_get_turnstile_response (page : Nat → Attempt) (max_attempts : Nat := 10)
    (invisible : Bool := false) : LoopOut :=
  asyncLoopGo page invisible 0 max_attempts 0 0 0 0

/-- The `while attempts < max_attempts` loop of
`TurnstileSolver._get_turnstile_response` (sync_solver.py lines 110-134),
which performs the same sequence of page operations as the async variant. -/
def syncLoopGo (page : Nat → Attempt) (invisible : Bool) :
    Nat → Nat → Nat → Nat → Nat → Nat → LoopOut
  | _, 0, probes, clicks, empties, sleeps =>
      ⟨Except.ok none, probes, clicks, empties, sleeps⟩
  | attempts, fuel+1, probes, clicks, empties, sleeps =>
    match (page attempts).evalRes with
    | Except.error e => ⟨Except.error e, probes + 1, clicks, empties, sleeps⟩
    | Except.ok v =>
      if v = "" then
        if invisible then
          syncLoopGo page invisible (attempts+1) fuel (probes+1) clicks (empties+1) (sleeps+1)
        else
          match (page attempts).styleRes with
          | Except.error e => ⟨Except.error e, probes + 1, clicks, empties + 1, sleeps⟩
          | Except.ok _ =>
            match (page attempts).clickRes with
            | Except.error e => ⟨Except.error e, probes + 1, clicks + 1, empties + 1, sleeps⟩
            | Except.ok _ =>
              syncLoopGo page invisible (attempts+1) fuel (probes+1) (clicks+1) (empties+1) (sleeps+1)
      else
        match (page attempts).queryRes with
        | Except.error e => ⟨Except.error e, probes + 1, clicks, empties, sleeps⟩
        | Except.ok false => ⟨Except.ok none, probes + 1, clicks, empties, sleeps⟩
        | Except.ok true =>
          match (page attempts).attrRes with
          | Except.error e => ⟨Except.error e, probes + 1, clicks, empties, sleeps⟩
          | Except.ok w => ⟨Except.ok w, probes + 1, clicks, empties, sleeps⟩

/-- `TurnstileSolver._get_turnstile_response` (sync_solver.py line 108). -/
def sync_get_turnstile_response (page : Nat → Attempt) (max_attempts : Nat := 10)
    (invisible : Bool := false) : LoopOut :=
  syncLoopGo page invisible 0 max_attempts 0 0 0 0

/-- The `TurnstileResult` dataclass shared by async_solver.py and
sync_solver.py.  `elapsed_time_seconds` is measured on the model clock
(number of executed poll sleeps). -/
structure TurnstileResult where
  turnstile_value : Option String
  elapsed_time_seconds : Nat
  status : String
  reason : Option String := none
deriving DecidableEq, Repr

/-- Environment of one `AsyncTurnstileSolver.solve` run: the outcome of page
setup (`_setup_page`: page creation, route installation and initial
navigation), and the page oracle driving the extraction loop. -/
structure AsyncSolveEnv where
  setupRes : Except String Unit
  page : Nat → Attempt

/-- The message of the UnboundLocalError raised by the cleanup block of
`AsyncTurnstileSolver.solve`: when the inner `try` raises before `result` is
assigned, the `finally` block evaluates the f-string
`debug(f"Elapsed time: {result.elapsed_time_seconds} seconds")`, whose read of
the unbound local `result` raises UnboundLocalError, replacing the in-flight
exception.  The exact wording of the message depends on the Python version;
the model only relies on it being a fixed string that does not depend on the
replaced exception. -/
def unboundLocalResultMsg : String :=
  "cannot access local variable 'result' where it is not associated with a value"

/-- `AsyncTurnstileSolver.solve` (async_solver.py lines 136-308), modelling
the result construction common to its chromium / chrome / camoufox branches.
A setup exception, or an exception propagating out of the retry loop, first
hits the inner `finally` block, which (after the browser close calls, modelled
as non-failing) evaluates a debug f-string reading the still-unbound local
`result`; the resulting UnboundLocalError replaces the in-flight exception,
so the outer handler builds an `error` result whose `reason` is the
UnboundLocalError text, not the original exception's message.  Otherwise a
falsy loop value (Python `not turnstile_value`: `None` or the empty string)
yields a `failure` result with the literal reason string, and a truthy value
yields a `success` result with no reason (on these paths `result` is bound
and the cleanup block succeeds). -/
def solve (env : AsyncSolveEnv) (invisible : Bool) : TurnstileResult :=
  match env.setupRes with
  | Except.error _ =>
      { turnstile_value := none, elapsed_time_seconds := 0,
        status := "error", reason := some unboundLocalResultMsg }
  | Except.ok _ =>
      let out := async_get_turnstile_response env.page 10 invisible
      match out.result with
      | Except.error _ =>
          { turnstile_value := none, elapsed_time_seconds := out.sleeps,
            status := "error", reason := some unboundLocalResultMsg }
      | Except.ok none =>
          { turnstile_value := none, elapsed_time_seconds := out.sleeps,
            status := "failure",
            reason := some "Max attempts reached without token retrieval" }
      | Except.ok (some v) =>
          if v = "" then
            { turnstile_value := none, elapsed_time_seconds := out.sleeps,
              status := "failure",
              reason := some "Max attempts reached without token retrieval" }
          else
            { turnstile_value := some v, elapsed_time_seconds := out.sleeps,
              status := "success", reason := none }

/-- A value stored in the API server's results ledger (`self.results`) under
a task id: either the pending sentinel string "CAPTCHA_NOT_READY" written by
`process_turnstile`, or a terminal record with the shape written by
`_solve_turnstile` — a dict holding a `value` entry (the token, `None`, or
the sentinel string "CAPTCHA_FAIL") and an `elapsed_time` entry. -/
inductive ResultVal where
  | notReady
  | record (value : Option String) (elapsedTime : Nat)
deriving DecidableEq, Repr

/-- Outcome of the `for attempt in range(10)` loop of
`TurnstileAPIServer._solve_turnstile`: either the success branch wrote a
record (carrying the attribute value, the computed elapsed time and the clock
at the write), or the loop finished without writing. -/
inductive ApiLoopOut where
  | wrote (value : Option String) (elapsed : Nat) (clock : Nat)
  | noWrite (clock : Nat)
deriving DecidableEq, Repr

/-- The `for attempt in range(10)` loop of `TurnstileAPIServer._solve_turnstile`
(api_solver.py lines 192-222).  Unlike the solver modules' loop, the whole
iteration body sits inside a `try` whose handler logs, sleeps and continues,
so no page exception escapes the loop.  On an empty probe the widget is
nudged (unless `invisible`) and the loop sleeps; on a non-empty probe the
element is looked up — if found, its attribute is read and the success record
is written (elapsed time = current clock minus `startTime`) and the loop
breaks; if no element is found the iteration ends with no write and no sleep.
The clock advances by one unit per executed sleep. -/
def apiLoopGo (page : Nat → Attempt) (invisible : Bool) (startTime : Nat) :
    Nat → Nat → Nat → ApiLoopOut
  | _, 0, clock => ApiLoopOut.noWrite clock
  | i, fuel+1, clock =>
    match (page i).evalRes with
    | Except.error _ => apiLoopGo page invisible startTime (i+1) fuel (clock+1)
    | Except.ok v =>
      if v = "" then
        if invisible then
          apiLoopGo page invisible startTime (i+1) fuel (clock+1)
        else
          match (page i).styleRes with
          | Except.error _ => apiLoopGo page invisible startTime (i+1) fuel (clock+1)
          | Except.ok _ =>
            match (page i).clickRes with
            | Except.error _ => apiLoopGo page invisible startTime (i+1) fuel (clock+1)
            | Except.ok _ => apiLoopGo page invisible startTime (i+1) fuel (clock+1)
      else
        match (page i).queryRes with
        | Except.error _ => apiLoopGo page invisible startTime (i+1) fuel (clock+1)
        | Except.ok false => apiLoopGo page invisible startTime (i+1) fuel clock
        | Except.ok true =>
          match (page i).attrRes with
          | Except.error _ => apiLoopGo page invisible startTime (i+1) fuel (clock+1)
          | Except.ok w => ApiLoopOut.wrote w (clock - startTime) clock

/-- Environment of one `_solve_turnstile` run: outcomes of the setup calls
`page.route` and `page.goto`, the page oracle for the retry loop, and whether
the best-effort page reset in the `finally` block succeeds (its failure is
swallowed by a bare `except: pass`). -/
structure ApiEnv where
  routeRes : Except String Unit
  gotoRes : Except String Unit
  page : Nat → Attempt
  resetOk : Bool

/-- Observable effects of one `_solve_turnstile` run: the final ledger value
for the task id, the list of ledger writes performed by the run (in order),
the number of `_save_results` calls, the number of `browser_pool.put` calls,
whether the loop's success branch wrote (`loopSuccess`), and the clock when
the run reached its terminal write (or finished setup failure handling). -/
structure RunOut where
  ledger : ResultVal
  writes : List ResultVal
  saves : Nat
  puts : Nat
  loopSuccess : Bool
  endClock : Nat
deriving DecidableEq, Repr

/-- `TurnstileAPIServer._solve_turnstile` (api_solver.py lines 172-249).
The slot has already been taken from `browser_pool` when the body starts;
`acquireClock` is the clock at that moment, and `start_time` is sampled right
after the acquisition (line 175).  Setup failure (route installation or
initial navigation raising) reaches the outer handler, which writes a
"CAPTCHA_FAIL" record without saving.  A successful loop write also calls
`_save_results` and breaks.  After the loop, a task still marked with the
pending sentinel gets a "CAPTCHA_FAIL" record, again without saving.  The
`finally` block performs the best-effort reset (failure swallowed) and puts
the slot back exactly once. -/
def solve_turnstile (env : ApiEnv) (invisible : Bool) (acquireClock : Nat)
    (initLedger : ResultVal) : RunOut :=
  let startTime := acquireClock
  match env.routeRes, env.gotoRes with
  | Except.error _, _ =>
      let r := ResultVal.record (some "CAPTCHA_FAIL") (acquireClock - startTime)
      { ledger := r, writes := [r], saves := 0, puts := 1,
        loopSuccess := false, endClock := acquireClock }
  | Except.ok _, Except.error _ =>
      let r := ResultVal.record (some "CAPTCHA_FAIL") (acquireClock - startTime)
      { ledger := r, writes := [r], saves := 0, puts := 1,
        loopSuccess := false, endClock := acquireClock }
  | Except.ok _, Except.ok _ =>
      match apiLoopGo env.page invisible startTime 0 10 acquireClock with
      | ApiLoopOut.wrote v e clk =>
          let r := ResultVal.record v e
          { ledger := r, writes := [r], saves := 1, puts := 1,
            loopSuccess := true, endClock := clk }
      | ApiLoopOut.noWrite clk =>
          if initLedger = ResultVal.notReady then
            let r := ResultVal.record (some "CAPTCHA_FAIL") (clk - startTime)
            { ledger := r, writes := [r], saves := 0, puts := 1,
              loopSuccess := false, endClock := clk }
          else
            { ledger := initLedger, writes := [], saves := 0, puts := 1,
              loopSuccess := false, endClock := clk }

/-- Response of the `/turnstile` submit endpoint: a structured validation
error (HTTP 400) or acceptance (HTTP 202) carrying the freshly minted task
id. -/
inductive SubmitResp where
  | validationError
  | accepted (taskId : String)
deriving DecidableEq, Repr

/-- Observable effect of one `process_turnstile` call: the HTTP response,
the ledger entry created (id and value), if any, and whether the browser
pool was touched (it never is — the background unit of work is detached). -/
structure SubmitOut where
  resp : SubmitResp
  newEntry : Option (String × ResultVal)
  poolTouched : Bool
deriving DecidableEq, Repr

/-- `TurnstileAPIServer.process_turnstile` (api_solver.py lines 251-286).
`url` and `sitekey` are the query parameters (`none` when absent; Quart
returns the empty string for a parameter that is present but empty).  The
Python truthiness check `if not url or not sitekey` rejects both the absent
and the empty-string cases.  On acceptance the pending sentinel is stored
under a fresh uuid (`freshId`) and the id is returned immediately; the
background task is detached without touching the pool. -/
def process_turnstile (freshId : String) (url sitekey : Option String) : SubmitOut :=
  if url.getD "" = "" ∨ sitekey.getD "" = "" then
    { resp := SubmitResp.validationError, newEntry := none, poolTouched := false }
  else
    { resp := SubmitResp.accepted freshId,
      newEntry := some (freshId, ResultVal.notReady), poolTouched := false }

/-- `TurnstileAPIServer.get_result` (api_solver.py lines 288-305), modelled
as the HTTP status code it answers with: 400 for an unknown id, 202 while
the entry is the pending sentinel, 422 when the record's `value` is the
"CAPTCHA_FAIL" sentinel, and 200 otherwise. -/
def get_result (entry : Option ResultVal) : Nat :=
  match entry with
  | none => 400
  | some ResultVal.notReady => 202
  | some (ResultVal.record v _) => if v = some "CAPTCHA_FAIL" then 422 else 200

/-! Concrete page behaviours used by counterexamples and witnesses. -/

/-- An attempt whose probe sees an empty field and whose nudge operations all
succeed. -/
def emptyAttempt : Attempt :=
  ⟨Except.ok "", Except.ok (), Except.ok (), Except.ok true, Except.ok none⟩

/-- An attempt whose probe sees the non-empty value `v`, with the element
found and its attribute reading back `v`. -/
def tokenAttempt (v : String) : Attempt :=
  ⟨Except.ok v, Except.ok (), Except.ok (), Except.ok true, Except.ok (some v)⟩

/-- An attempt whose probe raises the exception message `e`. -/
def raiseAttempt (e : String) : Attempt :=
  ⟨Except.error e, Except.ok (), Except.ok (), Except.ok true, Except.ok none⟩

/-- An attempt whose probe sees the non-empty value `v` but whose element
lookup finds no element. -/
def vanishAttempt (v : String) : Attempt :=
  ⟨Except.ok v, Except.ok (), Except.ok (), Except.ok false, Except.ok none⟩

/-- An attempt whose probe sees the non-empty value `v` but whose attribute
read returns the different value `w`. -/
def staleAttempt (v w : String) : Attempt :=
  ⟨Except.ok v, Except.ok (), Except.ok (), Except.ok true, Except.ok (some w)⟩

/-- A page whose field is empty on every probe. -/
def pageAllEmpty : Nat → Attempt := fun _ => emptyAttempt

/-- A page whose field is empty for the first `k` probes and then holds `v`. -/
def pageEmptyThenToken (k : Nat) (v : String) : Nat → Attempt :=
  fun i => if i < k then emptyAttempt else tokenAttempt v

/-- A page whose first probe raises and whose later probes hold a token. -/
def pageRaiseThenToken : Nat → Attempt :=
  fun i => if i = 0 then raiseAttempt "probe failed" else tokenAttempt "tok"

/-- A page whose probe sees a token but whose element lookup finds nothing. -/
def pageVanish : Nat → Attempt := fun _ => vanishAttempt "tok"

/-- A page whose probe sees one value but whose attribute read returns a
different one. -/
def pageStale : Nat → Attempt := fun _ => staleAttempt "probed" "attribute"

def envAllEmptyAsync : AsyncSolveEnv := ⟨Except.ok (), pageAllEmpty⟩

def envRaiseAsync : AsyncSolveEnv := ⟨Except.ok (), pageRaiseThenToken⟩

def envVanishAsync : AsyncSolveEnv := ⟨Except.ok (), pageVanish⟩

def envAllEmptyApi : ApiEnv := ⟨Except.ok (), Except.ok (), pageAllEmpty, true⟩

def envInstantApi : ApiEnv := ⟨Except.ok (), Except.ok (), fun _ => tokenAttempt "tok", true⟩

example : async_get_turnstile_response pageAllEmpty 10 false =
    ⟨Except.ok none, 10, 10, 10, 10⟩ := by decide

example : async_get_turnstile_response pageAllEmpty 10 true =
    ⟨Except.ok none, 10, 0, 10, 10⟩ := by decide

example : async_get_turnstile_response (pageEmptyThenToken 3 "tok") 10 false =
    ⟨Except.ok (some "tok"), 4, 3, 3, 3⟩ := by decide

example : solve envAllEmptyAsync false =
    { turnstile_value := none, elapsed_time_seconds := 10, status := "failure",
      reason := some "Max attempts reached without token retrieval" } := by decide

example : solve envRaiseAsync false =
    { turnstile_value := none, elapsed_time_seconds := 0, status := "error",
      reason := some unboundLocalResultMsg } := by decide

example : solve envVanishAsync false =
    { turnstile_value := none, elapsed_time_seconds := 0, status := "failure",
      reason := some "Max attempts reached without token retrieval" } := by decide

example : solve_turnstile envAllEmptyApi false 0 ResultVal.notReady =
    { ledger := ResultVal.record (some "CAPTCHA_FAIL") 10,
      writes := [ResultVal.record (some "CAPTCHA_FAIL") 10],
      saves := 0, puts := 1, loopSuccess := false, endClock := 10 } := by decide

example : solve_turnstile envInstantApi false 5 ResultVal.notReady =
    { ledger := ResultVal.record (some "tok") 0,
      writes := [ResultVal.record (some "tok") 0],
      saves := 1, puts := 1, loopSuccess := true, endClock := 5 } := by decide

/-! Step lemmas: one unfolding of the solver-module loop per branch shape. -/

theorem asyncLoopGo_error_step (page : Nat → Attempt) (invisible : Bool)
    (a fuel p c e s : Nat) (msg : String)
    (hev : (page a).evalRes = Except.error msg) :
    asyncLoopGo page invisible a (fuel+1) p c e s = ⟨Except.error msg, p + 1, c, e, s⟩ := by
  simp [asyncLoopGo, hev]

theorem asyncLoopGo_empty_step_invisible (page : Nat → Attempt)
    (a fuel p c e s : Nat) (hev : (page a).evalRes = Except.ok "") :
    asyncLoopGo page true a (fuel+1) p c e s =
      asyncLoopGo page true (a+1) fuel (p+1) c (e+1) (s+1) := by
  simp [asyncLoopGo, hev]

theorem asyncLoopGo_empty_step_visible (page : Nat → Attempt)
    (a fuel p c e s : Nat) (hev : (page a).evalRes = Except.ok "")
    (hst : (page a).styleRes = Except.ok ()) (hcl : (page a).clickRes = Except.ok ()) :
    asyncLoopGo page false a (fuel+1) p c e s =
      asyncLoopGo page false (a+1) fuel (p+1) (c+1) (e+1) (s+1) := by
  simp [asyncLoopGo, hev, hst, hcl]

theorem asyncLoopGo_style_error_step (page : Nat → Attempt)
    (a fuel p c e s : Nat) (msg : String) (hev : (page a).evalRes = Except.ok "")
    (hst : (page a).styleRes = Except.error msg) :
    asyncLoopGo page false a (fuel+1) p c e s = ⟨Except.error msg, p + 1, c, e + 1, s⟩ := by
  simp [asyncLoopGo, hev, hst]

theorem asyncLoopGo_click_error_step (page : Nat → Attempt)
    (a fuel p c e s : Nat) (msg : String) (hev : (page a).evalRes = Except.ok "")
    (hst : (page a).styleRes = Except.ok ()) (hcl : (page a).clickRes = Except.error msg) :
    asyncLoopGo page false a (fuel+1) p c e s = ⟨Except.error msg, p + 1, c + 1, e + 1, s⟩ := by
  simp [asyncLoopGo, hev, hst, hcl]

theorem asyncLoopGo_query_error_step (page : Nat → Attempt) (invisible : Bool)
    (a fuel p c e s : Nat) (v msg : String) (hev : (page a).evalRes = Except.ok v)
    (hv : v ≠ "") (hq : (page a).queryRes = Except.error msg) :
    asyncLoopGo page invisible a (fuel+1) p c e s = ⟨Except.error msg, p + 1, c, e, s⟩ := by
  simp [asyncLoopGo, hev, hv, hq]

theorem asyncLoopGo_vanish_step (page : Nat → Attempt) (invisible : Bool)
    (a fuel p c e s : Nat) (v : String) (hev : (page a).evalRes = Except.ok v)
    (hv : v ≠ "") (hq : (page a).queryRes = Except.ok false) :
    asyncLoopGo page invisible a (fuel+1) p c e s = ⟨Except.ok none, p + 1, c, e, s⟩ := by
  simp [asyncLoopGo, hev, hv, hq]

theorem asyncLoopGo_attr_error_step (page : Nat → Attempt) (invisible : Bool)
    (a fuel p c e s : Nat) (v msg : String) (hev : (page a).evalRes = Except.ok v)
    (hv : v ≠ "") (hq : (page a).queryRes = Except.ok true)
    (hw : (page a).attrRes = Except.error msg) :
    asyncLoopGo page invisible a (fuel+1) p c e s = ⟨Except.error msg, p + 1, c, e, s⟩ := by
  simp [asyncLoopGo, hev, hv, hq, hw]

theorem asyncLoopGo_success_step (page : Nat → Attempt) (invisible : Bool)
    (a fuel p c e s : Nat) (v : String) (w : Option String)
    (hev : (page a).evalRes = Except.ok v) (hv : v ≠ "")
    (hq : (page a).queryRes = Except.ok true) (hw : (page a).attrRes = Except.ok w) :
    asyncLoopGo page invisible a (fuel+1) p c e s = ⟨Except.ok w, p + 1, c, e, s⟩ := by
  simp [asyncLoopGo, hev, hv, hq, hw]

/-! Inductive lemmas about the solver-module loop. -/

/-- The sync solver's loop performs the same computation as the async one. -/
theorem syncLoopGo_eq_asyncLoopGo (page : Nat → Attempt) (invisible : Bool) :
    ∀ fuel attempts probes clicks empties sleeps,
    syncLoopGo page invisible attempts fuel probes clicks empties sleeps =
      asyncLoopGo page invisible attempts fuel probes clicks empties sleeps := by
  intro fuel
  induction fuel with
  | zero => intro a p c e s; rfl
  | succ n ih =>
    intro a p c e s
    cases hev : (page a).evalRes with
    | error msg => simp [syncLoopGo, asyncLoopGo, hev]
    | ok v =>
      by_cases hv : v = ""
      · subst hv
        cases invisible with
        | true =>
          simp only [syncLoopGo, asyncLoopGo, hev, if_pos rfl]
          exact ih (a+1) (p+1) c (e+1) (s+1)
        | false =>
          cases hst : (page a).styleRes with
          | error msg => simp [syncLoopGo, asyncLoopGo, hev, hst]
          | ok u =>
            cases hcl : (page a).clickRes with
            | error msg => simp [syncLoopGo, asyncLoopGo, hev, hst, hcl]
            | ok u2 =>
              simp only [syncLoopGo, asyncLoopGo, hev, hst, hcl, if_pos rfl,
                Bool.false_eq_true, if_false]
              exact ih (a+1) (p+1) (c+1) (e+1) (s+1)
      · cases hq : (page a).queryRes with
        | error msg => simp [syncLoopGo, asyncLoopGo, hev, hv, hq]
        | ok b =>
          cases b
          · simp [syncLoopGo, asyncLoopGo, hev, hv, hq]
          · cases hw : (page a).attrRes <;>
              simp [syncLoopGo, asyncLoopGo, hev, hv, hq, *]

/-- A run over a page whose field is empty on every probe, with working nudge
operations, exhausts the whole budget: one probe, one empty observation and
one sleep per remaining attempt, plus one click per attempt when the widget
is not invisible, and the loop returns no token. -/
theorem asyncLoopGo_allEmpty (page : Nat → Attempt) (invisible : Bool)
    (h : ∀ i, (page i).evalRes = Except.ok "" ∧ (page i).styleRes = Except.ok () ∧
      (page i).clickRes = Except.ok ()) :
    ∀ fuel attempts probes clicks empties sleeps,
    asyncLoopGo page invisible attempts fuel probes clicks empties sleeps =
      ⟨Except.ok none, probes + fuel, clicks + (if invisible then 0 else fuel),
        empties + fuel, sleeps + fuel⟩ := by
  intro fuel
  induction fuel with
  | zero => intro a p c e s; cases invisible <;> simp [asyncLoopGo]
  | succ n ih =>
    intro a p c e s
    have h0 := h a
    cases invisible with
    | true =>
      rw [asyncLoopGo_empty_step_invisible page a n p c e s h0.1,
        ih (a+1) (p+1) c (e+1) (s+1), if_pos rfl, if_pos rfl]
      congr 1 <;> omega
    | false =>
      rw [asyncLoopGo_empty_step_visible page a n p c e s h0.1 h0.2.1 h0.2.2,
        ih (a+1) (p+1) (c+1) (e+1) (s+1), if_neg Bool.false_ne_true,
        if_neg Bool.false_ne_true]
      congr 1 <;> omega

/-- When the widget is invisible, the loop never issues a click. -/
theorem asyncLoopGo_invisible_clicks (page : Nat → Attempt) :
    ∀ fuel attempts probes clicks empties sleeps,
    (asyncLoopGo page true attempts fuel probes clicks empties sleeps).clicks = clicks := by
  intro fuel
  induction fuel with
  | zero => intro a p c e s; rfl
  | succ n ih =>
    intro a p c e s
    cases hev : (page a).evalRes with
    | error msg => rw [asyncLoopGo_error_step page true a n p c e s msg hev]
    | ok v =>
      by_cases hv : v = ""
      · subst hv
        rw [asyncLoopGo_empty_step_invisible page a n p c e s hev]
        exact ih (a+1) (p+1) c (e+1) (s+1)
      · cases hq : (page a).queryRes with
        | error msg => rw [asyncLoopGo_query_error_step page true a n p c e s v msg hev hv hq]
        | ok b =>
          cases b
          · rw [asyncLoopGo_vanish_step page true a n p c e s v hev hv hq]
          · cases hw : (page a).attrRes with
            | error msg =>
              rw [asyncLoopGo_attr_error_step page true a n p c e s v msg hev hv hq hw]
            | ok w => rw [asyncLoopGo_success_step page true a n p c e s v w hev hv hq hw]

/-- When the widget is not invisible and the nudge operations never fail, the
loop issues exactly one click per empty probe. -/
theorem asyncLoopGo_clicks_eq_empties (page : Nat → Attempt)
    (hops : ∀ i, (page i).styleRes = Except.ok () ∧ (page i).clickRes = Except.ok ()) :
    ∀ fuel attempts probes clicks empties sleeps,
    (asyncLoopGo page false attempts fuel probes clicks empties sleeps).clicks + empties =
      (asyncLoopGo page false attempts fuel probes clicks empties sleeps).empties + clicks := by
  intro fuel
  induction fuel with
  | zero => intro a p c e s; exact Nat.add_comm c e
  | succ n ih =>
    intro a p c e s
    cases hev : (page a).evalRes with
    | error msg =>
      rw [asyncLoopGo_error_step page false a n p c e s msg hev]
      exact Nat.add_comm c e
    | ok v =>
      by_cases hv : v = ""
      · subst hv
        rw [asyncLoopGo_empty_step_visible page a n p c e s hev (hops a).1 (hops a).2]
        have := ih (a+1) (p+1) (c+1) (e+1) (s+1)
        omega
      · cases hq : (page a).queryRes with
        | error msg =>
          rw [asyncLoopGo_query_error_step page false a n p c e s v msg hev hv hq]
          exact Nat.add_comm c e
        | ok b =>
          cases b
          · rw [asyncLoopGo_vanish_step page false a n p c e s v hev hv hq]
            exact Nat.add_comm c e
          · cases hw : (page a).attrRes with
            | error msg =>
              rw [asyncLoopGo_attr_error_step page false a n p c e s v msg hev hv hq hw]
              exact Nat.add_comm c e
            | ok w =>
              rw [asyncLoopGo_success_step page false a n p c e s v w hev hv hq hw]
              exact Nat.add_comm c e

/-- The loop probes at most once more than the number of empty probes it
observes: every probe except possibly the final one observed an empty field. -/
theorem asyncLoopGo_probes_le (page : Nat → Attempt) (invisible : Bool) :
    ∀ fuel attempts probes clicks empties sleeps,
    (asyncLoopGo page invisible attempts fuel probes clicks empties sleeps).probes + empties ≤
      (asyncLoopGo page invisible attempts fuel probes clicks empties sleeps).empties +
        probes + 1 := by
  intro fuel
  induction fuel with
  | zero =>
    intro a p c e s
    show p + e ≤ e + p + 1
    omega
  | succ n ih =>
    intro a p c e s
    cases hev : (page a).evalRes with
    | error msg =>
      rw [asyncLoopGo_error_step page invisible a n p c e s msg hev]
      show p + 1 + e ≤ e + p + 1
      omega
    | ok v =>
      by_cases hv : v = ""
      · subst hv
        cases invisible with
        | true =>
          rw [asyncLoopGo_empty_step_invisible page a n p c e s hev]
          have := ih (a+1) (p+1) c (e+1) (s+1)
          omega
        | false =>
          cases hst : (page a).styleRes with
          | error msg =>
            rw [asyncLoopGo_style_error_step page a n p c e s msg hev hst]
            show p + 1 + e ≤ e + 1 + p + 1
            omega
          | ok u =>
            cases hcl : (page a).clickRes with
            | error msg =>
              rw [asyncLoopGo_click_error_step page a n p c e s msg hev hst hcl]
              show p + 1 + e ≤ e + 1 + p + 1
              omega
            | ok u2 =>
              rw [asyncLoopGo_empty_step_visible page a n p c e s hev hst hcl]
              have := ih (a+1) (p+1) (c+1) (e+1) (s+1)
              omega
      · cases hq : (page a).queryRes with
        | error msg =>
          rw [asyncLoopGo_query_error_step page invisible a n p c e s v msg hev hv hq]
          show p + 1 + e ≤ e + p + 1
          omega
        | ok b =>
          cases b
          · rw [asyncLoopGo_vanish_step page invisible a n p c e s v hev hv hq]
            show p + 1 + e ≤ e + p + 1
            omega
          · cases hw : (page a).attrRes with
            | error msg =>
              rw [asyncLoopGo_attr_error_step page invisible a n p c e s v msg hev hv hq hw]
              show p + 1 + e ≤ e + p + 1
              omega
            | ok w =>
              rw [asyncLoopGo_success_step page invisible a n p c e s v w hev hv hq hw]
              show p + 1 + e ≤ e + p + 1
              omega

/-- Stepping over an initial run of `k` empty probes (with working nudge
operations) advances the loop to attempt `k`, consuming `k` units of fuel,
probing, sleeping and observing empty `k` times, and clicking `k` times
unless invisible. -/
theorem asyncLoopGo_emptyPrefix (page : Nat → Attempt) (invisible : Bool) :
    ∀ k attempts fuel probes clicks empties sleeps,
    (∀ j, j < k → (page (attempts + j)).evalRes = Except.ok "" ∧
      (page (attempts + j)).styleRes = Except.ok () ∧
      (page (attempts + j)).clickRes = Except.ok ()) →
    k ≤ fuel →
    asyncLoopGo page invisible attempts fuel probes clicks empties sleeps =
      asyncLoopGo page invisible (attempts + k) (fuel - k) (probes + k)
        (clicks + (if invisible then 0 else k)) (empties + k) (sleeps + k) := by
  intro k
  induction k with
  | zero => intro a fuel p c e s h hk; cases invisible <;> simp
  | succ m ih =>
    intro a fuel p c e s h hk
    obtain ⟨f, rfl⟩ : ∃ f, fuel = f + 1 := ⟨fuel - 1, by omega⟩
    have h0 := h 0 (by omega)
    simp only [Nat.add_zero] at h0
    have hshift : ∀ j, j < m → (page (a + 1 + j)).evalRes = Except.ok "" ∧
        (page (a + 1 + j)).styleRes = Except.ok () ∧
        (page (a + 1 + j)).clickRes = Except.ok () := by
      intro j hj
      have hmem := h (j + 1) (by omega)
      have harith : a + (j + 1) = a + 1 + j := by omega
      rw [harith] at hmem
      exact hmem
    cases invisible with
    | true =>
      rw [asyncLoopGo_empty_step_invisible page a f p c e s h0.1,
        ih (a+1) f (p+1) c (e+1) (s+1) hshift (by omega), if_pos rfl, if_pos rfl]
      congr 1 <;> omega
    | false =>
      rw [asyncLoopGo_empty_step_visible page a f p c e s h0.1 h0.2.1 h0.2.2,
        ih (a+1) f (p+1) (c+1) (e+1) (s+1) hshift (by omega),
        if_neg Bool.false_ne_true, if_neg Bool.false_ne_true]
      congr 1 <;> omega

/-! Lemmas about the API server's loop and background unit of work. -/

/-- Clock value carried by an api-loop outcome. -/
def ApiLoopOut.clockOf : ApiLoopOut → Nat
  | ApiLoopOut.wrote _ _ clk => clk
  | ApiLoopOut.noWrite clk => clk

/-- Shift an api-loop outcome's clock by `st`, keeping the recorded elapsed
time. -/
def apiShift (st : Nat) : ApiLoopOut → ApiLoopOut
  | ApiLoopOut.wrote v e clk => ApiLoopOut.wrote v e (st + clk)
  | ApiLoopOut.noWrite clk => ApiLoopOut.noWrite (st + clk)

/-- The api loop depends on the start clock only by translation: running with
start time `st` and clock `st + t` is the run with start time `0` and clock
`t`, with all clocks shifted by `st`.  In particular the recorded elapsed
time is unchanged. -/
theorem apiLoopGo_shift (page : Nat → Attempt) (invisible : Bool) (st : Nat) :
    ∀ fuel i t, apiLoopGo page invisible st i fuel (st + t) =
      apiShift st (apiLoopGo page invisible 0 i fuel t) := by
  intro fuel
  induction fuel with
  | zero => intro i t; rfl
  | succ n ih =>
    intro i t
    have hsucc : st + t + 1 = st + (t + 1) := by omega
    cases hev : (page i).evalRes with
    | error msg =>
      simp only [apiLoopGo, hev]
      rw [hsucc]
      exact ih (i+1) (t+1)
    | ok v =>
      by_cases hv : v = ""
      · subst hv
        cases invisible with
        | true =>
          simp only [apiLoopGo, hev, if_pos rfl]
          rw [hsucc]
          exact ih (i+1) (t+1)
        | false =>
          cases hst : (page i).styleRes with
          | error msg =>
            simp only [apiLoopGo, hev, hst, if_pos rfl, Bool.false_eq_true, if_false]
            rw [hsucc]
            exact ih (i+1) (t+1)
          | ok u =>
            cases hcl : (page i).clickRes with
            | error msg =>
              simp only [apiLoopGo, hev, hst, hcl, if_pos rfl, Bool.false_eq_true, if_false]
              rw [hsucc]
              exact ih (i+1) (t+1)
            | ok u2 =>
              simp only [apiLoopGo, hev, hst, hcl, if_pos rfl, Bool.false_eq_true, if_false]
              rw [hsucc]
              exact ih (i+1) (t+1)
      · cases hq : (page i).queryRes with
        | error msg =>
          simp only [apiLoopGo, hev, if_neg hv, hq]
          rw [hsucc]
          exact ih (i+1) (t+1)
        | ok b =>
          cases b
          · simp only [apiLoopGo, hev, if_neg hv, hq]
            exact ih (i+1) t
          · cases hw : (page i).attrRes with
            | error msg =>
              simp only [apiLoopGo, hev, if_neg hv, hq, hw]
              rw [hsucc]
              exact ih (i+1) (t+1)
            | ok w =>
              simp only [apiLoopGo, hev, if_neg hv, hq, hw, apiShift]
              congr 1
              omega

/-- Along an api-loop run the clock never decreases, and the elapsed time
recorded by a success write equals the write clock minus the start time. -/
theorem apiLoopGo_elapsed (page : Nat → Attempt) (invisible : Bool) (st : Nat) :
    ∀ fuel i t, t ≤ (apiLoopGo page invisible st i fuel t).clockOf ∧
      (∀ v e clk, apiLoopGo page invisible st i fuel t = ApiLoopOut.wrote v e clk →
        e = clk - st) := by
  intro fuel
  induction fuel with
  | zero =>
    intro i t
    exact ⟨Nat.le_refl t, fun v e clk hcontra => by cases hcontra⟩
  | succ n ih =>
    intro i t
    cases hev : (page i).evalRes with
    | error msg =>
      simp only [apiLoopGo, hev]
      exact ⟨Nat.le_trans (by omega) (ih (i+1) (t+1)).1, (ih (i+1) (t+1)).2⟩
    | ok v =>
      by_cases hv : v = ""
      · subst hv
        cases invisible with
        | true =>
          simp only [apiLoopGo, hev, if_pos rfl]
          exact ⟨Nat.le_trans (by omega) (ih (i+1) (t+1)).1, (ih (i+1) (t+1)).2⟩
        | false =>
          cases hst : (page i).styleRes with
          | error msg =>
            simp only [apiLoopGo, hev, hst, if_pos rfl, Bool.false_eq_true, if_false]
            exact ⟨Nat.le_trans (by omega) (ih (i+1) (t+1)).1, (ih (i+1) (t+1)).2⟩
          | ok u =>
            cases hcl : (page i).clickRes with
            | error msg =>
              simp only [apiLoopGo, hev, hst, hcl, if_pos rfl, Bool.false_eq_true, if_false]
              exact ⟨Nat.le_trans (by omega) (ih (i+1) (t+1)).1, (ih (i+1) (t+1)).2⟩
            | ok u2 =>
              simp only [apiLoopGo, hev, hst, hcl, if_pos rfl, Bool.false_eq_true, if_false]
              exact ⟨Nat.le_trans (by omega) (ih (i+1) (t+1)).1, (ih (i+1) (t+1)).2⟩
      · cases hq : (page i).queryRes with
        | error msg =>
          simp only [apiLoopGo, hev, if_neg hv, hq]
          exact ⟨Nat.le_trans (by omega) (ih (i+1) (t+1)).1, (ih (i+1) (t+1)).2⟩
        | ok b =>
          cases b
          · simp only [apiLoopGo, hev, if_neg hv, hq]
            exact ih (i+1) t
          · cases hw : (page i).attrRes with
            | error msg =>
              simp only [apiLoopGo, hev, if_neg hv, hq, hw]
              exact ⟨Nat.le_trans (by omega) (ih (i+1) (t+1)).1, (ih (i+1) (t+1)).2⟩
            | ok w =>
              simp only [apiLoopGo, hev, if_neg hv, hq, hw]
              refine ⟨Nat.le_refl t, fun v2 e2 clk2 heq => ?_⟩
              cases heq
              rfl

/-! Claim theorems. -/

/-- Claim C1: for every task run by the API server's background unit of work,
the worker slot acquired from the browser pool is returned to the pool on
every exit path — extraction success, attempt exhaustion, a setup exception,
and a failing best-effort page reset included — with exactly one put of the
acquired slot back into the pool, so the total number of slots stays equal to
the configured thread count. -/
theorem C1_pool_release_on_all_paths (env : ApiEnv) (invisible : Bool)
    (acquireClock : Nat) (initLedger : ResultVal) :
    (solve_turnstile env invisible acquireClock initLedger).puts = 1 := by
  cases hr : env.routeRes with
  | error msg => simp [solve_turnstile, hr]
  | ok u =>
    cases hg : env.gotoRes with
    | error msg => simp [solve_turnstile, hr, hg]
    | ok u2 =>
      cases hl : apiLoopGo env.page invisible acquireClock 0 10 acquireClock with
      | wrote v e clk => simp [solve_turnstile, hr, hg, hl]
      | noWrite clk =>
        by_cases hinit : initLedger = ResultVal.notReady <;>
          simp [solve_turnstile, hr, hg, hl, hinit]

/-- Claim C2: for every task id minted by submit (whose ledger entry is the
pending sentinel when the background unit of work starts), the unit of work
performs exactly one terminal ledger write — a record — and that record is
the final ledger value, never overwritten by a later write of the run. -/
theorem C2_single_terminal_write (env : ApiEnv) (invisible : Bool) (acquireClock : Nat) :
    ∃ v e, (solve_turnstile env invisible acquireClock ResultVal.notReady).writes =
        [ResultVal.record v e] ∧
      (solve_turnstile env invisible acquireClock ResultVal.notReady).ledger =
        ResultVal.record v e := by
  cases hr : env.routeRes with
  | error msg =>
    exact ⟨some "CAPTCHA_FAIL", acquireClock - acquireClock,
      by simp [solve_turnstile, hr], by simp [solve_turnstile, hr]⟩
  | ok u =>
    cases hg : env.gotoRes with
    | error msg =>
      exact ⟨some "CAPTCHA_FAIL", acquireClock - acquireClock,
        by simp [solve_turnstile, hr, hg], by simp [solve_turnstile, hr, hg]⟩
    | ok u2 =>
      cases hl : apiLoopGo env.page invisible acquireClock 0 10 acquireClock with
      | wrote v e clk =>
        exact ⟨v, e, by simp [solve_turnstile, hr, hg, hl], by simp [solve_turnstile, hr, hg, hl]⟩
      | noWrite clk =>
        exact ⟨some "CAPTCHA_FAIL", clk - acquireClock,
          by simp [solve_turnstile, hr, hg, hl], by simp [solve_turnstile, hr, hg, hl]⟩

/-- Claim C5, corrected: the durable save is invoked exactly when the retry
loop's success branch writes its record; the exhaustion-failure and
setup-error terminal transitions update only the in-memory ledger and never
invoke the save operation. -/
theorem C5_save_only_after_success (env : ApiEnv) (invisible : Bool)
    (acquireClock : Nat) (initLedger : ResultVal) :
    (solve_turnstile env invisible acquireClock initLedger).saves =
      (if (solve_turnstile env invisible acquireClock initLedger).loopSuccess
        then 1 else 0) := by
  cases hr : env.routeRes with
  | error msg => simp [solve_turnstile, hr]
  | ok u =>
    cases hg : env.gotoRes with
    | error msg => simp [solve_turnstile, hr, hg]
    | ok u2 =>
      cases hl : apiLoopGo env.page invisible acquireClock 0 10 acquireClock with
      | wrote v e clk => simp [solve_turnstile, hr, hg, hl]
      | noWrite clk =>
        by_cases hinit : initLedger = ResultVal.notReady <;>
          simp [solve_turnstile, hr, hg, hl, hinit]

/-- Claim C5 counterexample: a run whose probes all come back empty reaches
the exhaustion-failure terminal transition — the ledger write occurs — yet
the save operation is never invoked, refuting "the save operation is invoked
after every terminal-state transition". -/
theorem C5_counterexample :
    (solve_turnstile envAllEmptyApi false 0 ResultVal.notReady).writes =
      [ResultVal.record (some "CAPTCHA_FAIL") 10] ∧
    (solve_turnstile envAllEmptyApi false 0 ResultVal.notReady).ledger =
      ResultVal.record (some "CAPTCHA_FAIL") 10 ∧
    (solve_turnstile envAllEmptyApi false 0 ResultVal.notReady).saves = 0 := by decide

/-- Claim C6, corrected: a submit request whose url or sitekey parameter is
missing or empty gets a structured validation error and creates no ledger
entry and touches no pool; a request with both parameters present and
non-empty records the pending sentinel under the fresh task id and returns
it immediately. -/
theorem C6_submit_validation (freshId : String) (url sitekey : Option String) :
    ((url = none ∨ url = some "" ∨ sitekey = none ∨ sitekey = some "") →
      process_turnstile freshId url sitekey =
        { resp := SubmitResp.validationError, newEntry := none, poolTouched := false }) ∧
    (∀ u s, url = some u → sitekey = some s → u ≠ "" → s ≠ "" →
      process_turnstile freshId url sitekey =
        { resp := SubmitResp.accepted freshId,
          newEntry := some (freshId, ResultVal.notReady), poolTouched := false }) := by
  constructor
  · rintro (rfl | rfl | rfl | rfl) <;> simp [process_turnstile]
  · rintro u s rfl rfl hu hs
    simp [process_turnstile, hu, hs]

/-- Claim C6 witness: a concrete valid submission is accepted with a pending
entry, and a concrete submission with a missing url is rejected with no
entry. -/
theorem C6_submit_validation_witness :
    process_turnstile "task-1" (some "https://example.com") (some "key") =
      { resp := SubmitResp.accepted "task-1",
        newEntry := some ("task-1", ResultVal.notReady), poolTouched := false } ∧
    process_turnstile "task-2" none (some "key") =
      { resp := SubmitResp.validationError, newEntry := none, poolTouched := false } := by
  constructor
  · exact (C6_submit_validation "task-1" (some "https://example.com") (some "key")).2
      "https://example.com" "key" rfl rfl (by decide) (by decide)
  · exact (C6_submit_validation "task-2" none (some "key")).1 (Or.inl rfl)

/-- Claim C6 counterexample: a request with both parameters present (neither
is absent) but with an empty url string is rejected by the submit operation,
refuting "for every request with both parameters present, it records a
pending entry and returns a fresh task id". -/
theorem C6_counterexample :
    process_turnstile "task-1" (some "") (some "0x4AAAAAAACELUBpqiwktdQ9") =
      { resp := SubmitResp.validationError, newEntry := none, poolTouched := false } ∧
    (some "" : Option String) ≠ none ∧
    (some "0x4AAAAAAACELUBpqiwktdQ9" : Option String) ≠ none := by decide

/-- Claim C7, corrected: the start time is sampled just after pool
acquisition, so the recorded elapsed time measures the duration from
acquisition to the terminal transition — it excludes the queueing delay
before a worker slot is obtained, and is invariant under shifting the
acquisition clock. -/
theorem C7_elapsed_measured_from_acquisition (env : ApiEnv) (invisible : Bool)
    (acquireClock : Nat) :
    (∃ v, (solve_turnstile env invisible acquireClock ResultVal.notReady).ledger =
      ResultVal.record v
        ((solve_turnstile env invisible acquireClock ResultVal.notReady).endClock -
          acquireClock)) ∧
    ((solve_turnstile env invisible acquireClock ResultVal.notReady).endClock -
        acquireClock =
      (solve_turnstile env invisible 0 ResultVal.notReady).endClock) := by
  cases hr : env.routeRes with
  | error msg =>
    constructor
    · exact ⟨some "CAPTCHA_FAIL", by simp [solve_turnstile, hr]⟩
    · simp [solve_turnstile, hr]
  | ok u =>
    cases hg : env.gotoRes with
    | error msg =>
      constructor
      · exact ⟨some "CAPTCHA_FAIL", by simp [solve_turnstile, hr, hg]⟩
      · simp [solve_turnstile, hr, hg]
    | ok u2 =>
      have hshift := apiLoopGo_shift env.page invisible acquireClock 10 0 0
      rw [Nat.add_zero] at hshift
      cases hl0 : apiLoopGo env.page invisible 0 0 10 0 with
      | wrote v e0 c0 =>
        have he : e0 = c0 - 0 :=
          (apiLoopGo_elapsed env.page invisible 0 10 0 0).2 v e0 c0 hl0
        rw [hl0] at hshift
        constructor
        · refine ⟨v, ?_⟩
          simp [solve_turnstile, hr, hg, hshift, apiShift]
          try omega
        · simp [solve_turnstile, hr, hg, hshift, apiShift, hl0]
          try omega
      | noWrite c0 =>
        rw [hl0] at hshift
        constructor
        · refine ⟨some "CAPTCHA_FAIL", ?_⟩
          simp [solve_turnstile, hr, hg, hshift, apiShift]
          try omega
        · simp [solve_turnstile, hr, hg, hshift, apiShift, hl0]
          try omega

/-- Claim C7 counterexample: with submission at clock 0 and pool acquisition
completing at clock 5 (a queueing delay of 5 units), an instantly solved task
records an elapsed time of 0, not the 5 units that elapsed from submission to
the terminal transition — the recorded time excludes queueing delay. -/
theorem C7_counterexample :
    (solve_turnstile envInstantApi false 5 ResultVal.notReady).ledger =
      ResultVal.record (some "tok") 0 ∧
    (solve_turnstile envInstantApi false 5 ResultVal.notReady).endClock - 0 = 5 ∧
    (0 : Nat) ≠ 5 := by decide

/-- Claim C3, corrected: probe exceptions are contained only in the API
server's retry loop — there any exception during an attempt is caught, the
loop sleeps and continues to the next attempt, and only setup exceptions
abort the task; in the standalone solver modules the retry loop has no
per-attempt handler, so an exception during any probe propagates out of the
loop and the whole task is reported as an ERROR outcome carrying some reason
(the cleanup block's UnboundLocalError text, the probe exception itself
having been replaced on the way out). -/
theorem C3_probe_exception_containment :
    (∀ (page : Nat → Attempt) (invisible : Bool) (startTime i fuel clock : Nat)
      (msg : String), (page i).evalRes = Except.error msg →
      apiLoopGo page invisible startTime i (fuel+1) clock =
        apiLoopGo page invisible startTime (i+1) fuel (clock+1)) ∧
    (∀ (page : Nat → Attempt) (invisible : Bool) (m : Nat) (msg : String),
      (page 0).evalRes = Except.error msg →
      (async_get_turnstile_response page (m+1) invisible).result = Except.error msg) ∧
    (∀ (env : AsyncSolveEnv) (invisible : Bool) (msg : String),
      env.setupRes = Except.ok () → (env.page 0).evalRes = Except.error msg →
      (solve env invisible).status = "error" ∧ (solve env invisible).reason ≠ none) := by
  refine ⟨?_, ?_, ?_⟩
  · intro page invisible startTime i fuel clock msg hev
    simp only [apiLoopGo, hev]
  · intro page invisible m msg hev
    unfold async_get_turnstile_response
    rw [asyncLoopGo_error_step page invisible 0 m 0 0 0 0 msg hev]
  · intro env invisible msg hsetup hev
    have herr : async_get_turnstile_response env.page 10 invisible =
        ⟨Except.error msg, 1, 0, 0, 0⟩ := by
      unfold async_get_turnstile_response
      exact asyncLoopGo_error_step env.page invisible 0 9 0 0 0 0 msg hev
    constructor <;> simp [solve, hsetup, herr]

/-- Claim C3 witness: in the API server's loop a raising first probe just
advances the loop; in the async solver module, the same raising probe makes
the whole task an error. -/
theorem C3_probe_exception_containment_witness :
    apiLoopGo pageRaiseThenToken false 0 0 10 0 = apiLoopGo pageRaiseThenToken false 0 1 9 1 ∧
    (solve envRaiseAsync false).status = "error" := by
  constructor
  · exact C3_probe_exception_containment.1 pageRaiseThenToken false 0 0 9 0 "probe failed" rfl
  · exact (C3_probe_exception_containment.2.2 envRaiseAsync false "probe failed" rfl rfl).1

/-- Claim C3 counterexample: in the async solver module, a page whose first
probe raises and whose second probe would return a token yields an aborted
loop (a single probe) and an ERROR task — the claim predicts the exception is
treated as a transient attempt failure with the loop continuing to the next
attempt and succeeding. -/
theorem C3_counterexample :
    (solve envRaiseAsync false).status = "error" ∧
    (solve envRaiseAsync false).status ≠ "success" ∧
    (async_get_turnstile_response pageRaiseThenToken 10 false).result =
      Except.error "probe failed" ∧
    (async_get_turnstile_response pageRaiseThenToken 10 false).probes = 1 ∧
    (pageRaiseThenToken 1).evalRes = Except.ok "tok" ∧
    (pageRaiseThenToken 1).queryRes = Except.ok true ∧
    (pageRaiseThenToken 1).attrRes = Except.ok (some "tok") := by decide

/-- Claim C4: a session whose challenge field is empty on every probe (with
the probe and nudge operations themselves succeeding) makes the extraction
protocol perform exactly its 10-attempt budget of probes and return no token,
and the task outcome is a FAILURE — not an ERROR — carrying the non-empty
reason string "Max attempts reached without token retrieval". -/
theorem C4_exhaustion_failure (env : AsyncSolveEnv) (invisible : Bool)
    (hsetup : env.setupRes = Except.ok ())
    (hempty : ∀ i, (env.page i).evalRes = Except.ok "")
    (hops : ∀ i, (env.page i).styleRes = Except.ok () ∧
      (env.page i).clickRes = Except.ok ()) :
    (async_get_turnstile_response env.page 10 invisible).result = Except.ok none ∧
    (async_get_turnstile_response env.page 10 invisible).probes = 10 ∧
    (solve env invisible).status = "failure" ∧
    (solve env invisible).status ≠ "error" ∧
    (solve env invisible).reason = some "Max attempts reached without token retrieval" ∧
    "Max attempts reached without token retrieval" ≠ "" := by
  have hrun : async_get_turnstile_response env.page 10 invisible =
      ⟨Except.ok none, 0 + 10, 0 + (if invisible then 0 else 10), 0 + 10, 0 + 10⟩ := by
    unfold async_get_turnstile_response
    exact asyncLoopGo_allEmpty env.page invisible
      (fun i => ⟨hempty i, (hops i).1, (hops i).2⟩) 10 0 0 0 0 0
  refine ⟨?_, ?_, ?_, ?_, ?_, ?_⟩ <;> simp [solve, hsetup, hrun]

/-- Claim C4 witness: the concrete always-empty page exhausts all 10 probes
and the async solver reports a failure. -/
theorem C4_exhaustion_failure_witness :
    (async_get_turnstile_response pageAllEmpty 10 true).probes = 10 ∧
    (solve envAllEmptyAsync true).status = "failure" := by
  have h := C4_exhaustion_failure envAllEmptyAsync true rfl (fun i => rfl)
    (fun i => ⟨rfl, rfl⟩)
  exact ⟨h.2.1, h.2.2.1⟩

/-- Claim C8, corrected: in the solver modules' TurnstileResult the token
value is non-null (and non-empty) exactly on success, and the reason is
non-null exactly on failure or error; but the API server's terminal ledger
records carry no status or reason field at all — every terminal record has a
value field, and a failed or errored task is encoded by the sentinel string
"CAPTCHA_FAIL" stored in that value field. -/
theorem C8_value_reason_presence :
    (∀ (env : AsyncSolveEnv) (invisible : Bool),
      ((solve env invisible).status = "success" →
        (∃ v, v ≠ "" ∧ (solve env invisible).turnstile_value = some v) ∧
        (solve env invisible).reason = none) ∧
      ((solve env invisible).status = "failure" ∨ (solve env invisible).status = "error" →
        (solve env invisible).turnstile_value = none ∧
        (solve env invisible).reason ≠ none)) ∧
    (∀ (env : ApiEnv) (invisible : Bool) (acquireClock : Nat),
      (∃ v e, (solve_turnstile env invisible acquireClock ResultVal.notReady).ledger =
        ResultVal.record v e) ∧
      ((solve_turnstile env invisible acquireClock ResultVal.notReady).loopSuccess = false →
        ∃ e, (solve_turnstile env invisible acquireClock ResultVal.notReady).ledger =
          ResultVal.record (some "CAPTCHA_FAIL") e)) := by
  constructor
  · intro env invisible
    cases hsetup : env.setupRes with
    | error msg =>
      have hsolve : solve env invisible =
          { turnstile_value := none, elapsed_time_seconds := 0,
            status := "error", reason := some unboundLocalResultMsg } := by
        simp [solve, hsetup]
      rw [hsolve]
      exact ⟨fun hs => absurd (show ("error" : String) = "success" from hs) (by decide),
        fun hfe => ⟨rfl, by simp⟩⟩
    | ok u =>
      cases hres : (async_get_turnstile_response env.page 10 invisible).result with
      | error msg =>
        have hsolve : solve env invisible =
            { turnstile_value := none,
              elapsed_time_seconds :=
                (async_get_turnstile_response env.page 10 invisible).sleeps,
              status := "error", reason := some unboundLocalResultMsg } := by
          simp [solve, hsetup, hres]
        rw [hsolve]
        exact ⟨fun hs => absurd (show ("error" : String) = "success" from hs) (by decide),
          fun hfe => ⟨rfl, by simp⟩⟩
      | ok tv =>
        cases tv with
        | none =>
          have hsolve : solve env invisible =
              { turnstile_value := none,
                elapsed_time_seconds :=
                  (async_get_turnstile_response env.page 10 invisible).sleeps,
                status := "failure",
                reason := some "Max attempts reached without token retrieval" } := by
            simp [solve, hsetup, hres]
          rw [hsolve]
          exact ⟨fun hs => absurd (show ("failure" : String) = "success" from hs) (by decide),
            fun hfe => ⟨rfl, by simp⟩⟩
        | some v =>
          by_cases hv : v = ""
          · subst hv
            have hsolve : solve env invisible =
                { turnstile_value := none,
                  elapsed_time_seconds :=
                    (async_get_turnstile_response env.page 10 invisible).sleeps,
                  status := "failure",
                  reason := some "Max attempts reached without token retrieval" } := by
              simp [solve, hsetup, hres]
            rw [hsolve]
            exact ⟨fun hs => absurd (show ("failure" : String) = "success" from hs) (by decide),
              fun hfe => ⟨rfl, by simp⟩⟩
          · have hsolve : solve env invisible =
                { turnstile_value := some v,
                  elapsed_time_seconds :=
                    (async_get_turnstile_response env.page 10 invisible).sleeps,
                  status := "success", reason := none } := by
              simp [solve, hsetup, hres, hv]
            rw [hsolve]
            refine ⟨fun hs => ⟨⟨v, hv, rfl⟩, rfl⟩, fun hfe => ?_⟩
            rcases hfe with hfe | hfe
            · exact absurd (show ("success" : String) = "failure" from hfe) (by decide)
            · exact absurd (show ("success" : String) = "error" from hfe) (by decide)
  · intro env invisible acquireClock
    cases hr : env.routeRes with
    | error msg =>
      refine ⟨⟨some "CAPTCHA_FAIL", acquireClock - acquireClock,
        by simp [solve_turnstile, hr]⟩, fun hl => ⟨acquireClock - acquireClock,
        by simp [solve_turnstile, hr]⟩⟩
    | ok u =>
      cases hg : env.gotoRes with
      | error msg =>
        refine ⟨⟨some "CAPTCHA_FAIL", acquireClock - acquireClock,
          by simp [solve_turnstile, hr, hg]⟩, fun hl => ⟨acquireClock - acquireClock,
          by simp [solve_turnstile, hr, hg]⟩⟩
      | ok u2 =>
        cases hl : apiLoopGo env.page invisible acquireClock 0 10 acquireClock with
        | wrote v e clk =>
          refine ⟨⟨v, e, by simp [solve_turnstile, hr, hg, hl]⟩, fun hfalse => ?_⟩
          exfalso
          simp [solve_turnstile, hr, hg, hl] at hfalse
        | noWrite clk =>
          refine ⟨⟨some "CAPTCHA_FAIL", clk - acquireClock,
            by simp [solve_turnstile, hr, hg, hl]⟩, fun hfalse =>
            ⟨clk - acquireClock, by simp [solve_turnstile, hr, hg, hl]⟩⟩

/-- Claim C8 witness: the always-empty async run is a failure with a null
value and a present reason, and the always-empty API run writes a
CAPTCHA_FAIL-valued record. -/
theorem C8_value_reason_presence_witness :
    ((solve envAllEmptyAsync false).turnstile_value = none ∧
      (solve envAllEmptyAsync false).reason ≠ none) ∧
    (∃ e, (solve_turnstile envAllEmptyApi false 0 ResultVal.notReady).ledger =
      ResultVal.record (some "CAPTCHA_FAIL") e) := by
  constructor
  · exact (C8_value_reason_presence.1 envAllEmptyAsync false).2 (Or.inl (by decide))
  · exact (C8_value_reason_presence.2 envAllEmptyApi false 0).2 (by decide)

/-- Claim C8 counterexample: the API server's exhaustion run produces a
terminal record whose status (as surfaced by the result endpoint) is a
failure — HTTP 422 — yet the record's value field is present and holds the
sentinel "CAPTCHA_FAIL", and the record schema has no reason field at all,
refuting "the value field is present only when the status is SUCCESS" and
"the reason field is present when the status is FAILURE or ERROR". -/
theorem C8_counterexample :
    (solve_turnstile envAllEmptyApi false 0 ResultVal.notReady).ledger =
      ResultVal.record (some "CAPTCHA_FAIL") 10 ∧
    get_result (some (solve_turnstile envAllEmptyApi false 0 ResultVal.notReady).ledger) =
      422 ∧
    (some "CAPTCHA_FAIL" : Option String) ≠ none := by decide

/-- Claim C9: in both solver modules' extraction loops, an invisible run
issues zero clicks; a visible run (with working nudge operations) issues
exactly one click per empty probe; a probe that observes a non-empty field
value ends the probing, so the probe count is at most one more than the
number of empty probes; and when the first non-empty probe's element is
found with a matching attribute the loop returns that field's value after
exactly the empty probes plus one — the sync loop computing the same
function as the async one. -/
theorem C9_click_policy_and_short_circuit :
    (∀ (page : Nat → Attempt) (m : Nat),
      (async_get_turnstile_response page m true).clicks = 0 ∧
      (sync_get_turnstile_response page m true).clicks = 0) ∧
    (∀ (page : Nat → Attempt) (m : Nat),
      (∀ i, (page i).styleRes = Except.ok () ∧ (page i).clickRes = Except.ok ()) →
      (async_get_turnstile_response page m false).clicks =
        (async_get_turnstile_response page m false).empties) ∧
    (∀ (page : Nat → Attempt) (m : Nat) (invisible : Bool),
      (async_get_turnstile_response page m invisible).probes ≤
        (async_get_turnstile_response page m invisible).empties + 1) ∧
    (∀ (page : Nat → Attempt) (invisible : Bool) (k m : Nat) (v : String),
      (∀ j, j < k → (page j).evalRes = Except.ok "" ∧ (page j).styleRes = Except.ok () ∧
        (page j).clickRes = Except.ok ()) →
      (page k).evalRes = Except.ok v → v ≠ "" →
      (page k).queryRes = Except.ok true → (page k).attrRes = Except.ok (some v) →
      k < m →
      async_get_turnstile_response page m invisible =
        ⟨Except.ok (some v), k + 1, (if invisible then 0 else k), k, k⟩) ∧
    (∀ (page : Nat → Attempt) (m : Nat) (invisible : Bool),
      sync_get_turnstile_response page m invisible =
        async_get_turnstile_response page m invisible) := by
  refine ⟨?_, ?_, ?_, ?_, ?_⟩
  · intro page m
    constructor
    · exact asyncLoopGo_invisible_clicks page m 0 0 0 0 0
    · unfold sync_get_turnstile_response
      rw [syncLoopGo_eq_asyncLoopGo page true m 0 0 0 0 0]
      exact asyncLoopGo_invisible_clicks page m 0 0 0 0 0
  · intro page m hops
    have h := asyncLoopGo_clicks_eq_empties page hops m 0 0 0 0 0
    unfold async_get_turnstile_response
    omega
  · intro page m invisible
    have h := asyncLoopGo_probes_le page invisible m 0 0 0 0 0
    unfold async_get_turnstile_response
    omega
  · intro page invisible k m v hpre hev hv hq hw hk
    unfold async_get_turnstile_response
    have hstep := asyncLoopGo_emptyPrefix page invisible k 0 m 0 0 0 0
      (fun j hj => by simpa using hpre j hj) (by omega)
    obtain ⟨f, hf⟩ : ∃ f, m - k = f + 1 := ⟨m - k - 1, by omega⟩
    rw [hstep, hf]
    have hsucc := asyncLoopGo_success_step page invisible (0 + k) f (0 + k)
      (0 + (if invisible then 0 else k)) (0 + k) (0 + k) v (some v)
      (by simpa using hev) hv (by simpa using hq) (by simpa using hw)
    rw [hsucc]
    simp
  · intro page m invisible
    unfold sync_get_turnstile_response async_get_turnstile_response
    exact syncLoopGo_eq_asyncLoopGo page invisible m 0 0 0 0 0

/-- Claim C9 witness: a page empty for three probes then holding a token,
with a 10-attempt budget: the invisible run clicks zero times, and the
visible run returns the token after four probes with exactly three clicks. -/
theorem C9_click_policy_and_short_circuit_witness :
    (async_get_turnstile_response (pageEmptyThenToken 3 "tok") 10 true).clicks = 0 ∧
    async_get_turnstile_response (pageEmptyThenToken 3 "tok") 10 false =
      ⟨Except.ok (some "tok"), 4, 3, 3, 3⟩ := by
  constructor
  · exact (C9_click_policy_and_short_circuit.1 (pageEmptyThenToken 3 "tok") 10).1
  · have h := C9_click_policy_and_short_circuit.2.2.2.1 (pageEmptyThenToken 3 "tok")
      false 3 10 "tok" (by decide) (by decide) (by decide) (by decide) (by decide)
      (by decide)
    simpa using h

/-- Claim C10: in both solver modules' extraction loops, a probe that
observes a non-empty field value followed by an element lookup that finds no
element makes the loop exit immediately returning no token — so the solver
records a failure even though a non-empty value was observed — and when the
element is found, the returned token is whatever the element's value
attribute read yields, never the probe result itself. -/
theorem C10_token_read_from_element :
    (∀ (page : Nat → Attempt) (invisible : Bool) (k m : Nat) (v : String),
      (∀ j, j < k → (page j).evalRes = Except.ok "" ∧ (page j).styleRes = Except.ok () ∧
        (page j).clickRes = Except.ok ()) →
      (page k).evalRes = Except.ok v → v ≠ "" →
      (page k).queryRes = Except.ok false → k < m →
      async_get_turnstile_response page m invisible =
        ⟨Except.ok none, k + 1, (if invisible then 0 else k), k, k⟩ ∧
      sync_get_turnstile_response page m invisible =
        ⟨Except.ok none, k + 1, (if invisible then 0 else k), k, k⟩) ∧
    (∀ (page : Nat → Attempt) (invisible : Bool) (k m : Nat) (v : String)
      (w : Option String),
      (∀ j, j < k → (page j).evalRes = Except.ok "" ∧ (page j).styleRes = Except.ok () ∧
        (page j).clickRes = Except.ok ()) →
      (page k).evalRes = Except.ok v → v ≠ "" →
      (page k).queryRes = Except.ok true → (page k).attrRes = Except.ok w → k < m →
      (async_get_turnstile_response page m invisible).result = Except.ok w) ∧
    (∀ (env : AsyncSolveEnv) (invisible : Bool) (v : String),
      env.setupRes = Except.ok () → (env.page 0).evalRes = Except.ok v → v ≠ "" →
      (env.page 0).queryRes = Except.ok false →
      (solve env invisible).status = "failure" ∧
      (solve env invisible).turnstile_value = none) := by
  refine ⟨?_, ?_, ?_⟩
  · intro page invisible k m v hpre hev hv hq hk
    have hstep := asyncLoopGo_emptyPrefix page invisible k 0 m 0 0 0 0
      (fun j hj => by simpa using hpre j hj) (by omega)
    obtain ⟨f, hf⟩ : ∃ f, m - k = f + 1 := ⟨m - k - 1, by omega⟩
    have hvanish := asyncLoopGo_vanish_step page invisible (0 + k) f (0 + k)
      (0 + (if invisible then 0 else k)) (0 + k) (0 + k) v
      (by simpa using hev) hv (by simpa using hq)
    constructor
    · unfold async_get_turnstile_response
      rw [hstep, hf, hvanish]
      simp
    · unfold sync_get_turnstile_response
      rw [syncLoopGo_eq_asyncLoopGo page invisible m 0 0 0 0 0, hstep, hf, hvanish]
      simp
  · intro page invisible k m v w hpre hev hv hq hw hk
    have hstep := asyncLoopGo_emptyPrefix page invisible k 0 m 0 0 0 0
      (fun j hj => by simpa using hpre j hj) (by omega)
    obtain ⟨f, hf⟩ : ∃ f, m - k = f + 1 := ⟨m - k - 1, by omega⟩
    have hsucc := asyncLoopGo_success_step page invisible (0 + k) f (0 + k)
      (0 + (if invisible then 0 else k)) (0 + k) (0 + k) v w
      (by simpa using hev) hv (by simpa using hq) (by simpa using hw)
    unfold async_get_turnstile_response
    rw [hstep, hf, hsucc]
  · intro env invisible v hsetup hev hv hq
    have hrun : async_get_turnstile_response env.page 10 invisible =
        ⟨Except.ok none, 1, 0, 0, 0⟩ := by
      unfold async_get_turnstile_response
      exact asyncLoopGo_vanish_step env.page invisible 0 9 0 0 0 0 v hev hv hq
    constructor <;> simp [solve, hsetup, hrun]

/-- Claim C10 witness: a page whose first probe sees a token but whose
element lookup finds nothing yields a failed solve with no token; and a page
whose element is found returns the attribute's value even when it differs
from the probed value. -/
theorem C10_token_read_from_element_witness :
    (solve envVanishAsync false).status = "failure" ∧
    (solve envVanishAsync false).turnstile_value = none ∧
    (async_get_turnstile_response pageStale 10 false).result =
      Except.ok (some "attribute") ∧
    (pageStale 0).evalRes = Except.ok "probed" := by
  refine ⟨?_, ?_, ?_, by decide⟩
  · exact (C10_token_read_from_element.2.2 envVanishAsync false "tok" rfl rfl
      (by decide) rfl).1
  · exact (C10_token_read_from_element.2.2 envVanishAsync false "tok" rfl rfl
      (by decide) rfl).2
  · exact C10_token_read_from_element.2.1 pageStale false 0 10 "probed"
      (some "attribute") (by decide) rfl (by decide) rfl rfl (by decide)

end TurnstileSolver
